import Mathlib

/-!
# Verification of the Join backend task-management logic

A shallow embedding of the Join backend (a Django/DRF task-management
API).  Python functions from `core_api/views.py`, `core_api/permissions.py`
and `auth_module` are translated into executable Lean definitions:

* request-level permission checks (`core_api/permissions.py` and the
  `permission_classes` configuration of each view);
* the task-list filter (`WorkItemManagementController.retrieve_filtered_collection`);
* the summary aggregator (`ProductivityMetricsView`);
* the contact/subtask reconciliation performed by
  `WorkItemManagementController.perform_create` / `partial_update`;
* API user registration (`UserSerializer` + `UserRegistrationAPIView.post`).

Database tables are lists of records, primary keys are `Nat` drawn from a
monotone counter, Python `dict` payload fields are `Option`-valued record
fields (`none` = key absent), and Python exceptions are an explicit
success flag threaded through the state-passing translation.
-/

/-! ## Requests and permission checks -/

/-- The part of a DRF request the permission layer looks at:
whether `request.user.is_authenticated` holds, and the raw value of the
`guest_id` query parameter (`none` when the parameter is absent). -/
structure ApiRequest where
  authenticated : Bool
  guest_id : Option String
deriving DecidableEq, Repr

/-- `AuthenticatedUserOrGuestAccessPermission._isAuthenticatedUser`:
`request.user and request.user.is_authenticated`. -/
def is_authenticated_user (r : ApiRequest) : Bool :=
  r.authenticated

/-- `AuthenticatedUserOrGuestAccessPermission._hasValidGuestIdentifier`:
`bool(request.query_params.get("guest_id"))` — absent or empty string is
falsy. -/
def has_valid_guest_identifier (r : ApiRequest) : Bool :=
  match r.guest_id with
  | none => false
  | some s => !(s = "")

/-- `AuthenticatedUserOrGuestAccessPermission.has_permission`
(`core_api/permissions.py`, aliased `IsAuthenticatedOrGuest`). -/
def has_permission (r : ApiRequest) : Bool :=
  if is_authenticated_user r then true else has_valid_guest_identifier r

/-- DRF's `AllowAny.has_permission`: always `True`. -/
def allow_any_permission (_r : ApiRequest) : Bool :=
  true

/-- DRF's `IsAuthenticated.has_permission`. -/
def is_authenticated_permission (r : ApiRequest) : Bool :=
  r.authenticated

/-- `WorkItemManagementController.permission_classes = [AllowAny]`
(`core_api/views.py` line 52): the gate actually applied to every
task endpoint request. -/
def task_endpoint_permission (r : ApiRequest) : Bool :=
  allow_any_permission r

/-- `WorkItemComponentController.permission_classes = [IsAuthenticatedOrGuest]`
(`core_api/views.py` line 200): the gate applied to subtask endpoints. -/
def subtask_endpoint_permission (r : ApiRequest) : Bool :=
  has_permission r

/-- `WorkspaceOverviewView.permission_classes = [IsAuthenticated]`
(`core_api/views.py` line 387): the gate applied to `GET /board/`. -/
def board_endpoint_permission (r : ApiRequest) : Bool :=
  is_authenticated_permission r

/-! ## Task rows, list filtering and the summary aggregator -/

/-- The columns of a `WorkItem` (Task) row that the filtering and
aggregation code reads (`core_api/models.py`): `status` and
`board_category` range over `to-do` / `in-progress` / `await-feedback` /
`done`, `priority` over `low` / `medium` / `urgent`. -/
structure WorkItemRow where
  status : String
  priority : String
  board_category : String
deriving DecidableEq, Repr

/-- `WorkItemManagementController.retrieve_filtered_collection`: reads
the `board_category` query parameter; `if workspace_category:` is Python
truthiness, so an absent parameter *or an empty-string value* falls
through to `WorkItem.objects.all()`. -/
def retrieve_filtered_collection (tasks : List WorkItemRow)
    (board_category_param : Option String) : List WorkItemRow :=
  match board_category_param with
  | none => tasks
  | some v => if v = "" then tasks else tasks.filter (fun t => t.board_category = v)

/-- `WorkItem.objects.filter(status=s).count()` over the embedded table. -/
def count_with_status (tasks : List WorkItemRow) (s : String) : Nat :=
  (tasks.filter (fun t => t.status = s)).length

/-- `WorkItem.objects.filter(priority=p).count()` over the embedded table. -/
def count_with_priority (tasks : List WorkItemRow) (p : String) : Nat :=
  (tasks.filter (fun t => t.priority = p)).length

/-- Python's `round` ties-to-even applied to a rational: the embedding of
`round(x, 2)`'s integer core (`round` at ndigits ≥ 0 rounds the scaled
value half-to-even). -/
def bankers_round (q : ℚ) : ℤ :=
  let fl : ℤ := ⌊q⌋
  let frac : ℚ := q - (fl : ℚ)
  if frac < 1/2 then fl
  else if 1/2 < frac then fl + 1
  else if fl % 2 = 0 then fl else fl + 1

/-- `round(x, 2)`: scale by 100, round half-to-even, scale back. -/
def py_round_2 (q : ℚ) : ℚ :=
  ((bankers_round (q * 100) : ℚ)) / 100

/-- `ProductivityMetricsView.calculate_progress_metrics`, as the record of
its four dictionary entries. -/
structure ProgressMetrics where
  total_work_items : Nat
  completed_work_items : Nat
  pending_work_items : Nat
  completion_percentage : ℚ
deriving DecidableEq, Repr

/-- `ProductivityMetricsView.calculate_progress_metrics`
(`core_api/views.py` lines 293–315). -/
def calculate_progress_metrics (tasks : List WorkItemRow) : ProgressMetrics :=
  let total := tasks.length
  let completed := count_with_status tasks "done"
  let pending := total - completed
  let percentage : ℚ :=
    if total > 0 then py_round_2 ((completed : ℚ) / (total : ℚ) * 100) else 0
  { total_work_items := total
    completed_work_items := completed
    pending_work_items := pending
    completion_percentage := percentage }

/-- `ProductivityMetricsView.count_items_by_status`, as a record of the
four status counts it returns. -/
structure StatusCounts where
  to_do : Nat
  in_progress : Nat
  await_feedback : Nat
  done_count : Nat
deriving DecidableEq, Repr

/-- `ProductivityMetricsView.count_items_by_status`
(`core_api/views.py` lines 317–329). -/
def count_items_by_status (tasks : List WorkItemRow) : StatusCounts :=
  { to_do := count_with_status tasks "to-do"
    in_progress := count_with_status tasks "in-progress"
    await_feedback := count_with_status tasks "await-feedback"
    done_count := count_with_status tasks "done" }

/-- `ProductivityMetricsView.count_items_by_priority`
(`core_api/views.py` lines 331–340): only the `urgent` count. -/
def count_items_by_priority (tasks : List WorkItemRow) : Nat :=
  count_with_priority tasks "urgent"

/-- The summary dictionary returned by `GET /summary/`:
`{to-do, in-progress, await-feedback, done, total-tasks, urgent,
completed-percentage}`. -/
structure SummaryData where
  to_do : Nat
  in_progress : Nat
  await_feedback : Nat
  done_count : Nat
  total_tasks : Nat
  urgent : Nat
  completed_percentage : ℚ
deriving DecidableEq, Repr

/-- `ProductivityMetricsView.assemble_summary_data`
(`core_api/views.py` lines 342–365): composes the three helper
aggregations into the response dictionary (note `done` is taken from
`progress_metrics["completed_work_items"]`, not from the status counts). -/
def assemble_summary_data (tasks : List WorkItemRow) : SummaryData :=
  let progress_metrics := calculate_progress_metrics tasks
  let status_counts := count_items_by_status tasks
  let priority_counts := count_items_by_priority tasks
  { to_do := status_counts.to_do
    in_progress := status_counts.in_progress
    await_feedback := status_counts.await_feedback
    done_count := progress_metrics.completed_work_items
    total_tasks := progress_metrics.total_work_items
    urgent := priority_counts
    completed_percentage := progress_metrics.completion_percentage }

/-! ## Subtask store and the payload shapes of the reconciliation code -/

/-- A `WorkItemComponent` (Subtask) row: primary key, `parent_item`
foreign key, `title`, `completed` (`core_api/models.py`). -/
structure SubtaskRow where
  id : Nat
  parent : Nat
  title : String
  completed : Bool
deriving DecidableEq, Repr

/-- The subtask table together with the database's primary-key counter:
every newly created row receives `next_id` and the counter advances. -/
structure SubtaskStore where
  subtasks : List SubtaskRow
  next_id : Nat
deriving DecidableEq, Repr

/-- `instance.components.all()`: the subtasks whose `parent_item` is the
given task. -/
def components_of (st : SubtaskStore) (tid : Nat) : List SubtaskRow :=
  st.subtasks.filter (fun s => s.parent = tid)

/-- `instance.components.all().delete()`. -/
def delete_components (st : SubtaskStore) (tid : Nat) : SubtaskStore :=
  { st with subtasks := st.subtasks.filter (fun s => !(s.parent = tid)) }

/-- `WorkItemComponent.objects.create(parent_item=…, title=…, completed=…)`:
appends a fresh row carrying the next primary key. -/
def create_component (st : SubtaskStore) (tid : Nat) (title : String)
    (completed : Bool) : SubtaskStore :=
  { subtasks := st.subtasks ++ [⟨st.next_id, tid, title, completed⟩]
    next_id := st.next_id + 1 }

/-- One element of a request's `subtasks` list.  `obj t c` is a JSON
object whose `title` / `completed` keys are present iff the corresponding
option is `some` (the reconciliation code reads no other key of the
object); `strE s` is a plain JSON string element. -/
inductive ComponentEntry where
  | obj (title : Option String) (completed : Option Bool)
  | strE (s : String)
deriving DecidableEq, Repr

/-- Whether `pat` is an initial segment of `s` (character lists). -/
def chars_start_with (pat s : List Char) : Bool :=
  match pat, s with
  | [], _ => true
  | _ :: _, [] => false
  | p :: ps, c :: cs => p = c && chars_start_with ps cs

/-- Whether `pat` occurs contiguously somewhere in `s` (character lists). -/
def chars_contain (s pat : List Char) : Bool :=
  match s with
  | [] => pat.isEmpty
  | _ :: rest => chars_start_with pat s || chars_contain rest pat

/-- Python's `pat in s` for strings: substring containment. -/
def str_contains (s pat : String) : Bool :=
  chars_contain s.toList pat.toList

/-- An entry that is an object with both a `title` and a `completed` key —
exactly the entries `update_component_items` turns into rows. -/
def well_formed_entry : ComponentEntry → Bool
  | .obj (some _) (some _) => true
  | _ => false

/-- The `title` a well-formed entry carries (dummy `""` otherwise). -/
def entry_title : ComponentEntry → String
  | .obj (some t) _ => t
  | _ => ""

/-- The `completed` flag a well-formed entry carries (dummy `false`
otherwise). -/
def entry_completed : ComponentEntry → Bool
  | .obj _ (some c) => c
  | _ => false

/-- One iteration of the creation loop inside
`WorkItemManagementController.update_component_items`: the
`"title" in component_data and "completed" in component_data` guard (for a
string element Python's `in` is substring containment), then the `create`
call.  The returned flag is `false` when Python raises: indexing
`component_data["title"]` on a string element whose text passes both
substring tests is a `TypeError`. -/
def update_entry_step (st : SubtaskStore) (tid : Nat) :
    ComponentEntry → SubtaskStore × Bool
  | .obj (some t) (some c) => (create_component st tid t c, true)
  | .obj _ _ => (st, true)
  | .strE s =>
      if str_contains s "title" && str_contains s "completed" then (st, false)
      else (st, true)

/-- Runs an entry-processing step over the `subtasks` list in input
order, stopping at the first raised exception (flag `false`); mutations
already performed are kept — the view wraps nothing in a transaction. -/
def entries_loop (step : SubtaskStore → ComponentEntry → SubtaskStore × Bool) :
    SubtaskStore → List ComponentEntry → SubtaskStore × Bool
  | st, [] => (st, true)
  | st, e :: rest =>
      let r := step st e
      if r.2 then entries_loop step r.1 rest else (r.1, false)

/-- `WorkItemManagementController.update_component_items`
(`core_api/views.py` lines 139–160): a non-empty list first deletes every
existing component of the task, then runs the guarded creation loop; an
empty list is a no-op (the `isinstance` guard also makes any non-list
value a no-op, which the caller's `.get("subtasks", [])` default already
covers as the empty list here). -/
def update_component_items (st : SubtaskStore) (tid : Nat)
    (component_data_list : List ComponentEntry) : SubtaskStore × Bool :=
  if component_data_list.isEmpty then (st, true)
  else entries_loop (fun s e => update_entry_step s tid e)
    (delete_components st tid) component_data_list

/-- One element of a `contact_ids` collection: a JSON integer or a JSON
string. -/
inductive ContactIdEntry where
  | intId (n : Int)
  | strId (s : String)
deriving DecidableEq, Repr

/-- The value found under the `contact_ids` key: a JSON list (Python
`list`/`tuple`/`set` all pass the `isinstance` test) or a plain string
(any non-sequence value Python can iterate). -/
inductive ContactIdsValue where
  | idList (xs : List ContactIdEntry)
  | idStr (s : String)
deriving DecidableEq, Repr

/-- An incoming task-endpoint request body, restricted to the keys the
reconciliation code and the serializer's writable relational field read.
`none` means the key is absent from the JSON body.  A `contacts` key may
be supplied by clients but is bound to no writable field anywhere. -/
structure RequestData where
  contact_ids : Option ContactIdsValue
  member_assignments : Option (List Int)
  contacts : Option ContactIdsValue
  subtasks : Option (List ComponentEntry)
deriving DecidableEq, Repr

/-- `WorkItemManagementController.extract_team_member_ids`
(`core_api/views.py` lines 84–97): reads only
`self.request.data.get("contact_ids", [])`.  A list-shaped value is
returned by `list(raw_ids)` unchanged; an absent key defaults to `[]`
(a list, hence also returned unchanged); any other value is iterated —
for a string that iterates its characters, keeping `int(c)` for digit
characters and dropping the rest. -/
def extract_team_member_ids (d : RequestData) : List ContactIdEntry :=
  match d.contact_ids with
  | none => []
  | some (.idList xs) => xs
  | some (.idStr s) =>
      (s.toList.filter Char.isDigit).map
        (fun c => .intId ((c.toNat : Int) - 48))

/-- The per-task state `partial_update` can touch besides the subtask
table: the many-to-many `contacts` assignment set. -/
structure TaskInstance where
  assigned : List ContactIdEntry
deriving DecidableEq, Repr

/-- `instance.contacts.set(ids)`: the relation is replaced by the given
ids; the join table keeps each pair once, so duplicates collapse. -/
def contacts_set (ids : List ContactIdEntry) : TaskInstance :=
  { assigned := ids.dedup }

/-- `WorkItemManagementController.handle_team_member_assignments`
(`core_api/views.py` lines 128–137): `contacts.set` runs only when the
value is a list **and** non-empty; an empty list or a non-list value
leaves the assignment set untouched. -/
def handle_team_member_assignments (t : TaskInstance)
    (team_member_ids : ContactIdsValue) : TaskInstance :=
  match team_member_ids with
  | .idList xs => if 0 < xs.length then contacts_set xs else t
  | .idStr _ => t

/-- The assignment effect of `super().partial_update` (the DRF
`ModelSerializer` with the writable `member_assignments` field mapped to
`contacts`, `core_api/serializers.py`): under `partial=True` the field is
applied only when its key is present.  The scalar-column updates the
serializer also performs are disjoint from the contact/subtask state
modelled here and are not represented. -/
def serializer_apply_assignments (t : TaskInstance) (d : RequestData) :
    TaskInstance :=
  match d.member_assignments with
  | some l => contacts_set (l.map ContactIdEntry.intId)
  | none => t

/-- The outcome of a task `PATCH`: the subtask table, the task's contact
assignments, and whether the request ran to completion (`ok = false`
models an uncaught exception inside the creation loop; the mutations
already made persist). -/
structure UpdateOutcome where
  store : SubtaskStore
  item : TaskInstance
  ok : Bool
deriving DecidableEq, Repr

/-- `WorkItemManagementController.partial_update`
(`core_api/views.py` lines 162–190): reads `contact_ids` with default
`None` and `subtasks` with default `[]`, conditionally reassigns
contacts, replaces components, then delegates to `super().partial_update`
(whose assignment effect is `serializer_apply_assignments`). -/
def work_item_patch (st : SubtaskStore) (t : TaskInstance) (tid : Nat)
    (d : RequestData) : UpdateOutcome :=
  let t1 :=
    match d.contact_ids with
    | some v => handle_team_member_assignments t v
    | none => t
  let r := update_component_items st tid (d.subtasks.getD [])
  if r.2 then
    { store := r.1, item := serializer_apply_assignments t1 d, ok := true }
  else
    { store := r.1, item := t1, ok := false }

/-- One iteration of `WorkItemManagementController.create_component_items`:
`WorkItemComponent.objects.create(parent_item=…, **component_data)` — an
object's missing `title`/`completed` fall back to the model-field
defaults `""`/`False`; unpacking `**` over a string element raises. -/
def create_entry_step (st : SubtaskStore) (tid : Nat) :
    ComponentEntry → SubtaskStore × Bool
  | .obj t c => (create_component st tid (t.getD "") (c.getD false), true)
  | .strE _ => (st, false)

/-- The outcome of a task `POST` that passed serializer validation. -/
structure CreateOutcome where
  store : SubtaskStore
  item : TaskInstance
  ok : Bool
deriving DecidableEq, Repr

/-- The creation flow for `POST /tasks/`: the serializer validates the
body (its writable relational field `member_assignments` is required, so
a body lacking that key is rejected with a 400 before any row exists —
the `none` result), `serializer.save()` sets the assignments from
`member_assignments`, then `WorkItemManagementController.perform_create`
(`core_api/views.py` lines 110–126) overwrites them with
`contacts.set(self.extract_team_member_ids())` and runs
`create_component_items` over `request.data.get("subtasks", [])`. -/
def work_item_create (st : SubtaskStore) (new_tid : Nat) (d : RequestData) :
    Option CreateOutcome :=
  match d.member_assignments with
  | none => none
  | some assigns =>
      let _t0 := contacts_set (assigns.map ContactIdEntry.intId)
      let t1 := contacts_set (extract_team_member_ids d)
      let r := entries_loop (fun s e => create_entry_step s new_tid e) st
        (d.subtasks.getD [])
      some { store := r.1, item := t1, ok := r.2 }

/-! ## API user registration -/

/-- A row of the custom user table (`auth_module/models.py`,
`EmailBasedAuthenticationUser`): `email` and `username` are both unique
columns. -/
structure UserRec where
  id : Nat
  email : String
  username : String
  password : String
deriving DecidableEq, Repr

/-- The user table with its primary-key counter. -/
structure UserStore where
  users : List UserRec
  next_user_id : Nat
deriving DecidableEq, Repr

/-- The body of an API registration request (`UserSerializer` fields:
`email`, `username`, `password`, `password2`, all required). -/
structure RegistrationData where
  email : String
  username : String
  password : String
  password2 : String
deriving DecidableEq, Repr

/-- The response of `UserRegistrationAPIView.post`: `created` carries the
HTTP status 201 plus `user_id`/`email`; `rejected` carries 400 plus the
keys of the field-keyed error payload. -/
inductive RegistrationResponse where
  | created (http_status : Nat) (user_id : Nat) (email : String)
  | rejected (http_status : Nat) (error_keys : List String)
deriving DecidableEq, Repr

/-- `User.objects.filter(email=e).first()` (queryability by email). -/
def find_user_by_email (st : UserStore) (e : String) : Option UserRec :=
  st.users.find? (fun u => u.email = e)

/-- `UserRegistrationAPIView.post` (`auth_module/views.py` lines
296–332) driving `UserSerializer` (`auth_module/serializers.py`):
field-level validation first (the `UniqueValidator`s generated from the
unique `email` and `username` columns), then the serializer's `validate`
(password/confirmation comparison, error keyed `password2`); on success
`create_user` appends a row and the view answers 201 with the new id and
email.  Failures answer 400 and leave the table untouched. -/
def registration_post (st : UserStore) (d : RegistrationData) :
    RegistrationResponse × UserStore :=
  let field_error_keys :=
    (if st.users.any (fun u => u.email = d.email) then ["email"] else []) ++
    (if st.users.any (fun u => u.username = d.username) then ["username"] else [])
  if field_error_keys.isEmpty then
    if d.password = d.password2 then
      let u : UserRec :=
        { id := st.next_user_id, email := d.email
          username := d.username, password := d.password }
      (.created 201 u.id u.email,
        { users := st.users ++ [u], next_user_id := st.next_user_id + 1 })
    else (.rejected 400 ["password2"], st)
  else (.rejected 400 field_error_keys, st)

/-! ## Invariants and helper lemmas -/

/-- Database key freshness: every subtask row's primary key is below the
counter.  Holds for every store the embedded operations can produce from
an empty table. -/
abbrev store_fresh (st : SubtaskStore) : Prop :=
  ∀ s ∈ st.subtasks, s.id < st.next_id

/-- The rows a run of the well-formed creation loop appends: one row per
entry, ids consecutive from `start`, titles and flags in input order. -/
def batch_rows (start : Nat) (tid : Nat) : List ComponentEntry → List SubtaskRow
  | [] => []
  | e :: rest =>
      ⟨start, tid, entry_title e, entry_completed e⟩ :: batch_rows (start + 1) tid rest

/-- An entry on which the creation loop raises: a string element whose
text passes both substring tests, so that `component_data["title"]` is a
`TypeError`. -/
def raising_entry : ComponentEntry → Bool
  | .strE s => str_contains s "title" && str_contains s "completed"
  | .obj _ _ => false

/-- The entries the creation loop actually reaches: the prefix before
the first raising element (an exception aborts the loop there). -/
def processed_entries (l : List ComponentEntry) : List ComponentEntry :=
  l.takeWhile (fun e => !raising_entry e)

/-- The descriptors the creation loop materializes into rows: of the
reached entries, exactly the objects carrying both a `title` and a
`completed` key. -/
def created_entries (l : List ComponentEntry) : List ComponentEntry :=
  (processed_entries l).filter well_formed_entry

theorem batch_rows_length (start tid : Nat) (l : List ComponentEntry) :
    (batch_rows start tid l).length = l.length := by
  induction l generalizing start with
  | nil => rfl
  | cons e rest ih => simpa [batch_rows] using ih (start + 1)

theorem batch_rows_mem (start tid : Nat) (l : List ComponentEntry) :
    ∀ s ∈ batch_rows start tid l,
      s.parent = tid ∧ start ≤ s.id ∧ s.id < start + l.length := by
  induction l generalizing start with
  | nil => intro s hs; simp [batch_rows] at hs
  | cons e rest ih =>
      intro s hs
      simp only [batch_rows, List.mem_cons] at hs
      rcases hs with rfl | hs
      · exact ⟨rfl, Nat.le_refl _, by simp only [List.length_cons]; omega⟩
      · obtain ⟨hp, hle, hlt⟩ := ih (start + 1) s hs
        exact ⟨hp, Nat.le_of_succ_le hle, by simp only [List.length_cons]; omega⟩

/-- What one run of the update creation loop does to an arbitrary
`subtasks` list: it appends one fresh row per materialized descriptor
(`created_entries`), advances the counter by their number, and reports
whether it ran without raising (no raising string element anywhere). -/
theorem entries_loop_run (tid : Nat) (l : List ComponentEntry)
    (st : SubtaskStore) :
    entries_loop (fun s e => update_entry_step s tid e) st l =
      (⟨st.subtasks ++ batch_rows st.next_id tid (created_entries l),
        st.next_id + (created_entries l).length⟩,
       l.all (fun e => !raising_entry e)) := by
  induction l generalizing st with
  | nil => simp [entries_loop, created_entries, processed_entries, batch_rows]
  | cons e rest ih =>
      match e with
      | .obj (some t) (some c) =>
          have hstep :
              entries_loop (fun s e => update_entry_step s tid e) st
                  (ComponentEntry.obj (some t) (some c) :: rest) =
                entries_loop (fun s e => update_entry_step s tid e)
                  (create_component st tid t c) rest := by
            simp [entries_loop, update_entry_step]
          rw [hstep, ih (create_component st tid t c)]
          simp only [created_entries, processed_entries, List.takeWhile_cons,
            raising_entry, Bool.not_false, if_true, List.filter_cons,
            well_formed_entry, if_pos, List.all_cons, Bool.true_and,
            create_component, batch_rows, entry_title, entry_completed,
            Prod.mk.injEq, SubtaskStore.mk.injEq, List.append_assoc,
            List.cons_append, List.nil_append, List.length_cons, and_true,
            true_and]
          omega
      | .obj (some t) none =>
          simpa [entries_loop, update_entry_step, created_entries,
            processed_entries, raising_entry, well_formed_entry] using ih st
      | .obj none c =>
          simpa [entries_loop, update_entry_step, created_entries,
            processed_entries, raising_entry, well_formed_entry] using ih st
      | .strE s =>
          by_cases hr :
              (str_contains s "title" && str_contains s "completed") = true
          · simp [entries_loop, update_entry_step, hr, created_entries,
              processed_entries, raising_entry, batch_rows]
          · simp only [Bool.not_eq_true] at hr
            simpa [entries_loop, update_entry_step, hr, created_entries,
              processed_entries, raising_entry, well_formed_entry] using ih st

/-- When every entry is well-formed, the loop materializes all of them. -/
theorem created_entries_all_wf (l : List ComponentEntry)
    (hwf : ∀ e ∈ l, well_formed_entry e = true) : created_entries l = l := by
  induction l with
  | nil => rfl
  | cons e rest ih =>
      have he := hwf e (List.mem_cons_self e rest)
      have hr : raising_entry e = false := by
        cases e with
        | obj t c => rfl
        | strE s => simp [well_formed_entry] at he
      have ih' := ih (fun x hx => hwf x (List.mem_cons_of_mem _ hx))
      simp only [created_entries, processed_entries] at ih' ⊢
      simp [List.takeWhile_cons, hr, he, ih']

/-- On a list with no well-formed entry the update creation loop never
touches the store. -/
theorem entries_loop_no_well_formed (tid : Nat) (l : List ComponentEntry)
    (hwf : ∀ e ∈ l, well_formed_entry e = false) (st : SubtaskStore) :
    (entries_loop (fun s e => update_entry_step s tid e) st l).1 = st := by
  induction l generalizing st with
  | nil => rfl
  | cons e rest ih =>
      have he : well_formed_entry e = false := hwf e (List.mem_cons_self e rest)
      have hrest : ∀ e ∈ rest, well_formed_entry e = false :=
        fun x hx => hwf x (List.mem_cons_of_mem _ hx)
      match e, he with
      | .obj none _, _ =>
          simpa [entries_loop, update_entry_step] using ih hrest st
      | .obj (some _) none, _ =>
          simpa [entries_loop, update_entry_step] using ih hrest st
      | .strE s, _ =>
          by_cases hc : (str_contains s "title" && str_contains s "completed") = true
          · simp [entries_loop, update_entry_step, hc]
          · simp only [Bool.not_eq_true] at hc
            simpa [entries_loop, update_entry_step, hc] using ih hrest st

/-- Deleting a task's components leaves it with none. -/
theorem components_of_delete (st : SubtaskStore) (tid : Nat) :
    components_of (delete_components st tid) tid = [] := by
  simp only [components_of, delete_components, List.filter_filter]
  apply List.filter_eq_nil_iff.mpr
  intro s _
  by_cases h : s.parent = tid <;> simp [h]

/-- Deleting one task's components does not disturb another task's. -/
theorem components_of_delete_other (st : SubtaskStore) (tid tid' : Nat)
    (h : tid' ≠ tid) :
    components_of (delete_components st tid) tid' = components_of st tid' := by
  simp only [components_of, delete_components, List.filter_filter]
  apply List.filter_congr
  intro s _
  by_cases hp : s.parent = tid'
  · simp [hp, h]
  · simp [hp]

/-- `components_of` distributes over an appended batch. -/
theorem components_of_append (a b : List SubtaskRow) (n tid : Nat) :
    components_of ⟨a ++ b, n⟩ tid =
      components_of ⟨a, n⟩ tid ++ components_of ⟨b, n⟩ tid := by
  simp [components_of]

/-- Every row of a batch belongs to the batch's task. -/
theorem components_of_batch (start tid : Nat) (l : List ComponentEntry) (n : Nat) :
    components_of ⟨batch_rows start tid l, n⟩ tid = batch_rows start tid l := by
  apply List.filter_eq_self.mpr
  intro s hs
  have := (batch_rows_mem start tid l s hs).1
  simp [this]

/-- The subtask table a `PATCH` leaves behind is exactly what
`update_component_items` computed: both branches of the final `if` keep
those mutations (no rollback). -/
theorem work_item_patch_store_eq (st : SubtaskStore) (t : TaskInstance)
    (tid : Nat) (d : RequestData) :
    (work_item_patch st t tid d).store =
      (update_component_items st tid (d.subtasks.getD [])).1 := by
  unfold work_item_patch
  cases h : (update_component_items st tid (d.subtasks.getD [])).2 <;> simp [h]

/-- A non-empty `subtasks` list: delete everything the task had, then
append one fresh row per materialized descriptor, in input order. -/
theorem update_component_items_run (st : SubtaskStore) (tid : Nat)
    (l : List ComponentEntry) (hne : l ≠ []) :
    update_component_items st tid l =
      (⟨st.subtasks.filter (fun s => !(s.parent = tid)) ++
          batch_rows st.next_id tid (created_entries l),
        st.next_id + (created_entries l).length⟩,
       l.all (fun e => !raising_entry e)) := by
  have hE : l.isEmpty = false := by
    cases l with
    | nil => exact absurd rfl hne
    | cons a b => rfl
  simp only [update_component_items, hE, Bool.false_eq_true, if_false]
  rw [entries_loop_run tid l (delete_components st tid)]
  simp [delete_components]

/-- A filtered-out parent has no components, whatever the counter. -/
theorem components_of_filter_out (xs : List SubtaskRow) (n tid : Nat) :
    components_of ⟨xs.filter (fun s => !(s.parent = tid)), n⟩ tid = [] := by
  simp only [components_of, List.filter_filter]
  apply List.filter_eq_nil_iff.mpr
  intro s _
  by_cases h : s.parent = tid <;> simp [h]

/-- After a `PATCH` carrying any non-empty `subtasks` list the task's
components are exactly the batch of materialized descriptors. -/
theorem work_item_patch_components_run (st : SubtaskStore) (t : TaskInstance)
    (tid : Nat) (d : RequestData) (l : List ComponentEntry)
    (hsub : d.subtasks = some l) (hne : l ≠ []) :
    components_of (work_item_patch st t tid d).store tid =
      batch_rows st.next_id tid (created_entries l) := by
  rw [work_item_patch_store_eq, hsub]
  simp only [Option.getD_some]
  rw [update_component_items_run st tid l hne]
  rw [components_of_append, components_of_filter_out, components_of_batch]
  simp

/-- The counter a non-empty-list `PATCH` leaves behind. -/
theorem work_item_patch_next_id_run (st : SubtaskStore) (t : TaskInstance)
    (tid : Nat) (d : RequestData) (l : List ComponentEntry)
    (hsub : d.subtasks = some l) (hne : l ≠ []) :
    (work_item_patch st t tid d).store.next_id =
      st.next_id + (created_entries l).length := by
  rw [work_item_patch_store_eq, hsub]
  simp only [Option.getD_some]
  rw [update_component_items_run st tid l hne]

/-! ## Claim theorems -/

/-- Counterexample to C1 as stated: a non-empty `subtasks` list of M = 1
descriptors need not leave the task with M subtasks — the descriptor
`{name: "x", done: true}` (an object carrying neither a `title` nor a
`completed` key, here `.obj none none`) is skipped by the key check at
`views.py` line 155, so the task ends with 0 subtasks, not 1. -/
theorem C1_counterexample :
    (components_of (work_item_patch ⟨[], 0⟩ ⟨[]⟩ 1
        ⟨none, none, none, some [.obj none none]⟩).store 1).length = 0 ∧
    ¬ ((components_of (work_item_patch ⟨[], 0⟩ ⟨[]⟩ 1
        ⟨none, none, none, some [.obj none none]⟩).store 1).length =
      ([ComponentEntry.obj none none] : List ComponentEntry).length) := by
  decide

/-- C1 amended: a partial update carrying a non-empty `subtasks` list
first deletes every existing subtask of the task, then creates one new
subtask per **materialized** descriptor — an object carrying both a
`title` and a `completed` key, reached before any raising string
element — in input order, so the task ends with exactly that batch:
K = `(created_entries l).length` subtasks, equal to M exactly when all M
descriptors carry both keys; no post-update subtask identifier equals
any pre-update identifier.  An absent or empty `subtasks` field leaves
the task's subtask set unchanged. -/
theorem C1_subtask_replacement_amended (st : SubtaskStore) (t : TaskInstance)
    (tid : Nat) (d : RequestData) (hfresh : store_fresh st) :
    (∀ l, d.subtasks = some l → l ≠ [] →
      components_of (work_item_patch st t tid d).store tid =
        batch_rows st.next_id tid (created_entries l) ∧
      (components_of (work_item_patch st t tid d).store tid).length =
        (created_entries l).length ∧
      ((∀ e ∈ l, well_formed_entry e = true) →
        (components_of (work_item_patch st t tid d).store tid).length =
          l.length) ∧
      (∀ s' ∈ components_of (work_item_patch st t tid d).store tid,
        ∀ s ∈ components_of st tid, s'.id ≠ s.id)) ∧
    ((d.subtasks = none ∨ d.subtasks = some []) →
      components_of (work_item_patch st t tid d).store tid =
        components_of st tid) := by
  constructor
  · intro l hsub hne
    have hcomp := work_item_patch_components_run st t tid d l hsub hne
    refine ⟨hcomp, by rw [hcomp, batch_rows_length], ?_, ?_⟩
    · intro hwf
      rw [hcomp, batch_rows_length, created_entries_all_wf l hwf]
    · intro s' hs' s hs
      rw [hcomp] at hs'
      have h1 :=
        (batch_rows_mem st.next_id tid (created_entries l) s' hs').2.1
      have h2 : s.id < st.next_id := hfresh s (List.mem_of_mem_filter hs)
      omega
  · rintro (h | h) <;>
      simp [work_item_patch_store_eq, h, update_component_items]

/-- Witness for C1 amended at a concrete input: a task with one old
subtask receives a list of two both-keys descriptors and ends with
exactly those two. -/
theorem C1_subtask_replacement_amended_witness :
    (components_of
      (work_item_patch ⟨[⟨0, 1, "old", false⟩], 1⟩ ⟨[]⟩ 1
        ⟨none, none, none,
          some [.obj (some "a") (some false), .obj (some "b") (some true)]⟩).store
      1).length = 2 :=
  ((C1_subtask_replacement_amended ⟨[⟨0, 1, "old", false⟩], 1⟩ ⟨[]⟩ 1
      ⟨none, none, none,
        some [.obj (some "a") (some false), .obj (some "b") (some true)]⟩
      (by decide)).1
    [.obj (some "a") (some false), .obj (some "b") (some true)]
    rfl (by decide)).2.2.1 (by decide)

/-- Counterexample to C6 as stated: applying the same non-empty
two-descriptor list twice does yield equal final counts, but that count
is 1, not the claimed M = 2 — the second element `.obj none none` (an
object with neither key) is skipped on both applications. -/
theorem C6_counterexample :
    (components_of (work_item_patch ⟨[], 0⟩ ⟨[]⟩ 1
        ⟨none, none, none,
          some [.obj (some "a") (some true), .obj none none]⟩).store 1).length =
      1 ∧
    (components_of
      (work_item_patch
        (work_item_patch ⟨[], 0⟩ ⟨[]⟩ 1
          ⟨none, none, none,
            some [.obj (some "a") (some true), .obj none none]⟩).store
        (work_item_patch ⟨[], 0⟩ ⟨[]⟩ 1
          ⟨none, none, none,
            some [.obj (some "a") (some true), .obj none none]⟩).item 1
        ⟨none, none, none,
          some [.obj (some "a") (some true), .obj none none]⟩).store
      1).length = 1 ∧
    ¬ ((components_of (work_item_patch ⟨[], 0⟩ ⟨[]⟩ 1
        ⟨none, none, none,
          some [.obj (some "a") (some true), .obj none none]⟩).store 1).length =
      ([ComponentEntry.obj (some "a") (some true),
        ComponentEntry.obj none none] : List ComponentEntry).length) := by
  decide

/-- C6 amended: applying the same non-empty `subtasks` list twice in
succession yields the same final subtask count after each application —
the number of materialized descriptors, equal to M exactly when all M
descriptors carry both a `title` and a `completed` key — while the
identifiers of the second batch are disjoint from those of the first. -/
theorem C6_reapply_amended (st : SubtaskStore) (t : TaskInstance)
    (tid : Nat) (d : RequestData) (l : List ComponentEntry)
    (hsub : d.subtasks = some l) (hne : l ≠ []) :
    (components_of (work_item_patch st t tid d).store tid).length =
      (created_entries l).length ∧
    (components_of
      (work_item_patch (work_item_patch st t tid d).store
        (work_item_patch st t tid d).item tid d).store tid).length =
      (created_entries l).length ∧
    ((∀ e ∈ l, well_formed_entry e = true) →
      (components_of (work_item_patch st t tid d).store tid).length =
        l.length) ∧
    (∀ a ∈ components_of
        (work_item_patch (work_item_patch st t tid d).store
          (work_item_patch st t tid d).item tid d).store tid,
      ∀ b ∈ components_of (work_item_patch st t tid d).store tid,
        a.id ≠ b.id) := by
  have hcomp1 := work_item_patch_components_run st t tid d l hsub hne
  have hnext1 := work_item_patch_next_id_run st t tid d l hsub hne
  have hcomp2 := work_item_patch_components_run
    (work_item_patch st t tid d).store
    (work_item_patch st t tid d).item tid d l hsub hne
  refine ⟨by rw [hcomp1, batch_rows_length],
    by rw [hcomp2, batch_rows_length], ?_, ?_⟩
  · intro hwf
    rw [hcomp1, batch_rows_length, created_entries_all_wf l hwf]
  · intro a ha b hb
    rw [hcomp2] at ha
    rw [hcomp1] at hb
    have h1 := (batch_rows_mem (work_item_patch st t tid d).store.next_id
      tid (created_entries l) a ha).2.1
    have h2 := (batch_rows_mem st.next_id tid (created_entries l) b hb).2.2
    rw [hnext1] at h1
    omega

/-- Witness for C6 amended at a concrete input: the same one-descriptor
list applied twice gives count 1 both times. -/
theorem C6_reapply_amended_witness :
    (components_of
      (work_item_patch
        (work_item_patch ⟨[], 0⟩ ⟨[]⟩ 1
          ⟨none, none, none, some [.obj (some "a") (some false)]⟩).store
        (work_item_patch ⟨[], 0⟩ ⟨[]⟩ 1
          ⟨none, none, none, some [.obj (some "a") (some false)]⟩).item 1
        ⟨none, none, none, some [.obj (some "a") (some false)]⟩).store
      1).length = 1 :=
  (C6_reapply_amended ⟨[], 0⟩ ⟨[]⟩ 1
    ⟨none, none, none, some [.obj (some "a") (some false)]⟩
    [.obj (some "a") (some false)] rfl (by decide)).2.1

/-- C9: a partial update supplying a non-empty `subtasks` list in which
no element is an object carrying both a `title` and a `completed` key
deletes all existing subtasks of the task and creates none — the
delete-all step runs before the per-descriptor key check — leaving the
task with exactly zero subtasks. -/
theorem C9_all_malformed_clears (st : SubtaskStore) (t : TaskInstance)
    (tid : Nat) (d : RequestData) (l : List ComponentEntry)
    (hsub : d.subtasks = some l) (hne : l ≠ [])
    (hnwf : ∀ e ∈ l, well_formed_entry e = false) :
    components_of (work_item_patch st t tid d).store tid = [] := by
  rw [work_item_patch_store_eq, hsub]
  simp only [Option.getD_some]
  have hE : l.isEmpty = false := by
    cases l with
    | nil => exact absurd rfl hne
    | cons a b => rfl
  simp only [update_component_items, hE, Bool.false_eq_true, if_false]
  rw [entries_loop_no_well_formed tid l hnwf (delete_components st tid)]
  exact components_of_delete st tid

/-- Witness for C9 at a concrete input: a task with two subtasks patched
with `subtasks = ["just a string", {title: "x"}]` ends with none. -/
theorem C9_all_malformed_clears_witness :
    components_of
      (work_item_patch ⟨[⟨0, 1, "a", false⟩, ⟨1, 1, "b", true⟩], 2⟩ ⟨[]⟩ 1
        ⟨none, none, none,
          some [.strE "just a string", .obj (some "x") none]⟩).store 1 = [] :=
  C9_all_malformed_clears ⟨[⟨0, 1, "a", false⟩, ⟨1, 1, "b", true⟩], 2⟩ ⟨[]⟩ 1
    ⟨none, none, none, some [.strE "just a string", .obj (some "x") none]⟩
    [.strE "just a string", .obj (some "x") none] rfl (by decide) (by decide)

/-- Counterexample to C2 as stated: a `PATCH` whose `contact_ids` is the
empty list does **not** clear the assignment set — the
`len(team_member_ids) > 0` guard in `handle_team_member_assignments`
skips the `contacts.set` call, so a task assigned to contact 1 keeps it. -/
theorem C2_counterexample :
    (work_item_patch ⟨[], 0⟩ ⟨[.intId 1]⟩ 1
      ⟨some (.idList []), none, none, none⟩).item.assigned = [.intId 1] ∧
    ¬ ((work_item_patch ⟨[], 0⟩ ⟨[.intId 1]⟩ 1
      ⟨some (.idList []), none, none, none⟩).item.assigned = []) := by
  decide

/-- C2 amended: omitting every assignment spelling from a `PATCH` leaves
the assignment set unchanged; a `PATCH` whose `contact_ids` is present
with an empty list **also leaves it unchanged** (it is not cleared); on
create, a missing or empty-list `contact_ids` yields zero assignments
whenever a task is created at all. -/
theorem C2_assignment_frame (st : SubtaskStore) (t : TaskInstance)
    (tid : Nat) (d : RequestData) :
    (d.contact_ids = none → d.member_assignments = none →
      (work_item_patch st t tid d).item.assigned = t.assigned) ∧
    (d.contact_ids = some (.idList []) → d.member_assignments = none →
      (work_item_patch st t tid d).item.assigned = t.assigned) ∧
    (∀ new_tid r, (d.contact_ids = none ∨ d.contact_ids = some (.idList [])) →
      work_item_create st new_tid d = some r → r.item.assigned = []) := by
  refine ⟨?_, ?_, ?_⟩
  · intro h1 h2
    cases hok : (update_component_items st tid (d.subtasks.getD [])).2 <;>
      simp [work_item_patch, h1, h2, serializer_apply_assignments, hok]
  · intro h1 h2
    cases hok : (update_component_items st tid (d.subtasks.getD [])).2 <;>
      simp [work_item_patch, h1, h2, serializer_apply_assignments,
        handle_team_member_assignments, hok]
  · intro new_tid r hc hr
    rcases hma : d.member_assignments with _ | assigns
    · simp [work_item_create, hma] at hr
    · simp only [work_item_create, hma, Option.some.injEq] at hr
      rcases hc with h | h <;>
        simp [← hr, extract_team_member_ids, h, contacts_set]

/-- Witness for C2 amended at a concrete input: contact 1 stays assigned
through a `PATCH` carrying `contact_ids: []`. -/
theorem C2_assignment_frame_witness :
    (work_item_patch ⟨[], 0⟩ ⟨[.intId 1]⟩ 1
      ⟨some (.idList []), none, none, none⟩).item.assigned = [.intId 1] :=
  (C2_assignment_frame ⟨[], 0⟩ ⟨[.intId 1]⟩ 1
    ⟨some (.idList []), none, none, none⟩).2.1 rfl rfl

/-- Counterexample to C3 as stated: extraction neither de-duplicates a
list value (`contact_ids: [1, 1]` comes back with the duplicate) nor
drops malformed entries (`contact_ids: ["abc"]` comes back verbatim) nor
falls back to `member_assignments`/`contacts` when `contact_ids` is
absent (the identifiers requested there are ignored). -/
theorem C3_counterexample :
    extract_team_member_ids
        ⟨some (.idList [.intId 1, .intId 1]), none, none, none⟩ =
      [.intId 1, .intId 1] ∧
    ¬ (extract_team_member_ids
        ⟨some (.idList [.intId 1, .intId 1]), none, none, none⟩).Nodup ∧
    extract_team_member_ids ⟨none, some [5], some (.idList [.intId 5]), none⟩ =
      [] ∧
    extract_team_member_ids ⟨some (.idList [.strId "abc"]), none, none, none⟩ =
      [.strId "abc"] := by
  decide

/-- C3 amended: extraction reads only the `contact_ids` key.  An absent
key yields the empty collection; a list-shaped value is returned
unchanged — duplicates and non-numeric entries included; a string value
is iterated character-wise, keeping exactly its digit characters as
integers (only there are malformed entries dropped). -/
theorem C3_extraction_amended (d : RequestData) :
    (d.contact_ids = none → extract_team_member_ids d = []) ∧
    (∀ xs, d.contact_ids = some (.idList xs) →
      extract_team_member_ids d = xs) ∧
    (∀ s, d.contact_ids = some (.idStr s) →
      extract_team_member_ids d =
        (s.toList.filter Char.isDigit).map
          (fun c => .intId ((c.toNat : Int) - 48)) ∧
      ∀ e ∈ extract_team_member_ids d, ∃ n : Int, e = .intId n) := by
  refine ⟨?_, ?_, ?_⟩
  · intro h; simp [extract_team_member_ids, h]
  · intro xs h; simp [extract_team_member_ids, h]
  · intro s h
    refine ⟨by simp [extract_team_member_ids, h], ?_⟩
    intro e he
    simp only [extract_team_member_ids, h, List.mem_map] at he
    obtain ⟨c, _, rfl⟩ := he
    exact ⟨_, rfl⟩

/-- Witness for C3 amended at a concrete input: with `contact_ids`
absent, extraction returns the empty collection even though
`member_assignments` requested contact 5. -/
theorem C3_extraction_amended_witness :
    extract_team_member_ids ⟨none, some [5], none, none⟩ = [] :=
  (C3_extraction_amended ⟨none, some [5], none, none⟩).1 rfl

/-- C4: the summary endpoint returns, over the full task collection, the
per-status counts, the urgent count, the total count, and
done/total×100 rounded to two decimals (0 for an empty store); on the
four-task store {to-do, to-do, in-progress, done} it reports
completed-percentage 25, done 1, to-do 2, total-tasks 4. -/
theorem C4_summary_aggregator :
    (∀ tasks : List WorkItemRow,
      (assemble_summary_data tasks).to_do = count_with_status tasks "to-do" ∧
      (assemble_summary_data tasks).in_progress =
        count_with_status tasks "in-progress" ∧
      (assemble_summary_data tasks).await_feedback =
        count_with_status tasks "await-feedback" ∧
      (assemble_summary_data tasks).done_count =
        count_with_status tasks "done" ∧
      (assemble_summary_data tasks).urgent =
        count_with_priority tasks "urgent" ∧
      (assemble_summary_data tasks).total_tasks = tasks.length ∧
      (assemble_summary_data tasks).completed_percentage =
        (if 0 < tasks.length then
          py_round_2
            ((count_with_status tasks "done" : ℚ) / (tasks.length : ℚ) * 100)
        else 0)) ∧
    assemble_summary_data
        [⟨"to-do", "low", "to-do"⟩, ⟨"to-do", "low", "to-do"⟩,
         ⟨"in-progress", "low", "in-progress"⟩, ⟨"done", "urgent", "done"⟩] =
      { to_do := 2, in_progress := 1, await_feedback := 0, done_count := 1,
        total_tasks := 4, urgent := 1, completed_percentage := 25 } := by
  constructor
  · intro tasks
    exact ⟨rfl, rfl, rfl, rfl, rfl, rfl, rfl⟩
  · simp only [assemble_summary_data, calculate_progress_metrics,
      count_items_by_status, count_items_by_priority, SummaryData.mk.injEq]
    refine ⟨by decide, by decide, by decide, by decide, by decide, by decide,
      ?_⟩
    have hdone : count_with_status
        [⟨"to-do", "low", "to-do"⟩, ⟨"to-do", "low", "to-do"⟩,
         ⟨"in-progress", "low", "in-progress"⟩,
         ⟨"done", "urgent", "done"⟩] "done" = 1 := by decide
    have hlen : ([⟨"to-do", "low", "to-do"⟩, ⟨"to-do", "low", "to-do"⟩,
         ⟨"in-progress", "low", "in-progress"⟩,
         ⟨"done", "urgent", "done"⟩] : List WorkItemRow).length = 4 := by decide
    rw [hdone, hlen]
    norm_num [py_round_2, bankers_round]

/-- C5: what the code computes at the claim's decisive input — the task
controller is configured with `AllowAny`, so an unauthenticated request
without a `guest_id` is *accepted* (every request is), although the
guest-aware permission the claim (and the repository's own
`testUnauthenticatedAccess`) describe rejects exactly that request. -/
theorem C5_task_endpoint_code_behavior :
    task_endpoint_permission ⟨false, none⟩ = true ∧
    (∀ r : ApiRequest, task_endpoint_permission r = true) ∧
    has_permission ⟨false, none⟩ = false :=
  ⟨rfl, fun _ => rfl, by decide⟩

/-- C7: a registration with fresh email/username and matching
password/confirmation answers 201 and makes the user queryable by email;
a password-confirmation mismatch answers 400 keyed `password2` leaving
the table unchanged; a duplicate email answers 400 with `email` among
the error keys and creates no user. -/
theorem C7_registration (st : UserStore) (d : RegistrationData) :
    ((∀ u ∈ st.users, u.email ≠ d.email) →
     (∀ u ∈ st.users, u.username ≠ d.username) →
     d.password = d.password2 →
      (registration_post st d).1 =
        .created 201 st.next_user_id d.email ∧
      (find_user_by_email (registration_post st d).2 d.email).isSome = true) ∧
    ((∀ u ∈ st.users, u.email ≠ d.email) →
     (∀ u ∈ st.users, u.username ≠ d.username) →
     d.password ≠ d.password2 →
      (registration_post st d).1 = .rejected 400 ["password2"] ∧
      (registration_post st d).2 = st) ∧
    ((∃ u ∈ st.users, u.email = d.email) →
      (∃ keys, (registration_post st d).1 = .rejected 400 keys ∧
        "email" ∈ keys) ∧
      (registration_post st d).2 = st) := by
  refine ⟨?_, ?_, ?_⟩
  · intro he hu hpw
    have h1 : st.users.any (fun u => u.email = d.email) = false := by
      simp only [List.any_eq_false, decide_eq_true_eq]
      exact he
    have h2 : st.users.any (fun u => u.username = d.username) = false := by
      simp only [List.any_eq_false, decide_eq_true_eq]
      exact hu
    constructor
    · simp [registration_post, h1, h2, hpw]
    · simp only [registration_post, h1, h2, hpw]
      simp only [if_neg, if_pos, List.isEmpty_nil, if_true]
      simp [find_user_by_email, List.find?_append]
  · intro he hu hpw
    have h1 : st.users.any (fun u => u.email = d.email) = false := by
      simp only [List.any_eq_false, decide_eq_true_eq]
      exact he
    have h2 : st.users.any (fun u => u.username = d.username) = false := by
      simp only [List.any_eq_false, decide_eq_true_eq]
      exact hu
    constructor <;> simp [registration_post, h1, h2, hpw]
  · intro hdup
    have h1 : st.users.any (fun u => u.email = d.email) = true := by
      simp only [List.any_eq_true, decide_eq_true_eq]
      exact hdup
    cases h2 : st.users.any (fun u => u.username = d.username)
    · refine ⟨⟨["email"], ?_, by simp⟩, ?_⟩ <;>
        simp [registration_post, h1, h2]
    · refine ⟨⟨["email", "username"], ?_, by simp⟩, ?_⟩ <;>
        simp [registration_post, h1, h2]

/-- Witness for C7 at the spec's scenario: registering `alice` at
`a@example.com` on an empty table answers 201 with user id 0; repeating
the identical registration leaves the table unchanged. -/
theorem C7_registration_witness :
    (registration_post ⟨[], 0⟩
        ⟨"a@example.com", "alice", "secret123", "secret123"⟩).1 =
      .created 201 0 "a@example.com" ∧
    (registration_post
        (registration_post ⟨[], 0⟩
          ⟨"a@example.com", "alice", "secret123", "secret123"⟩).2
        ⟨"a@example.com", "alice", "secret123", "secret123"⟩).2 =
      (registration_post ⟨[], 0⟩
        ⟨"a@example.com", "alice", "secret123", "secret123"⟩).2 :=
  ⟨((C7_registration ⟨[], 0⟩
      ⟨"a@example.com", "alice", "secret123", "secret123"⟩).1
      (by decide) (by decide) rfl).1,
   ((C7_registration
      (registration_post ⟨[], 0⟩
        ⟨"a@example.com", "alice", "secret123", "secret123"⟩).2
      ⟨"a@example.com", "alice", "secret123", "secret123"⟩).2.2
      (by decide)).2⟩

/-- Counterexample to C8 as stated: a present-but-empty
`board_category` query parameter is falsy, so the code returns the full
collection rather than the tasks whose category equals `""`. -/
theorem C8_counterexample :
    retrieve_filtered_collection [⟨"to-do", "low", "to-do"⟩] (some "") =
      [⟨"to-do", "low", "to-do"⟩] ∧
    ¬ (retrieve_filtered_collection [⟨"to-do", "low", "to-do"⟩] (some "") =
        ([⟨"to-do", "low", "to-do"⟩] : List WorkItemRow).filter
          (fun t => t.board_category = "")) := by
  decide

/-- C8 amended: a present **non-empty** filter value returns exactly the
tasks whose `board_category` equals it; an absent or empty-string
parameter returns the full collection. -/
theorem C8_filter_amended (tasks : List WorkItemRow) (p : Option String) :
    (∀ v, p = some v → v ≠ "" →
      retrieve_filtered_collection tasks p =
        tasks.filter (fun t => t.board_category = v)) ∧
    ((p = none ∨ p = some "") → retrieve_filtered_collection tasks p = tasks) := by
  constructor
  · intro v hp hv
    subst hp
    simp [retrieve_filtered_collection, hv]
  · rintro (rfl | rfl) <;> simp [retrieve_filtered_collection]

/-- Witness for C8 amended at a concrete input: filtering a one-task
store by the non-matching non-empty value `done` yields the filter of
the store. -/
theorem C8_filter_amended_witness :
    retrieve_filtered_collection [⟨"to-do", "low", "to-do"⟩] (some "done") =
      ([⟨"to-do", "low", "to-do"⟩] : List WorkItemRow).filter
        (fun t => t.board_category = "done") :=
  (C8_filter_amended [⟨"to-do", "low", "to-do"⟩] (some "done")).1 "done" rfl
    (by decide)

/-- C10: `GET /board/` is served only to fully authenticated users — a
guest-id-only request is rejected — while the same request passes the
subtask endpoints' permission. -/
theorem C10_board_requires_auth (r : ApiRequest) :
    (r.authenticated = false → board_endpoint_permission r = false) ∧
    (r.authenticated = false → has_valid_guest_identifier r = true →
      subtask_endpoint_permission r = true) ∧
    board_endpoint_permission ⟨false, some "guest42"⟩ = false ∧
    subtask_endpoint_permission ⟨false, some "guest42"⟩ = true := by
  refine ⟨?_, ?_, by decide, by decide⟩
  · intro h
    simp [board_endpoint_permission, is_authenticated_permission, h]
  · intro h hg
    simp [subtask_endpoint_permission, has_permission, is_authenticated_user,
      h, hg]

/-- Witness for C10 at a concrete input: the unauthenticated guest
request is rejected by the board permission. -/
theorem C10_board_requires_auth_witness :
    board_endpoint_permission ⟨false, some "g"⟩ = false :=
  (C10_board_requires_auth ⟨false, some "g"⟩).1 rfl
